import Mathlib

/-!
Verification of the PickPerfect analysis pipeline (`src/utils/task_helpers.py`
and `src/app_celery/tasks.py`) against its natural-language specification.

Modelling conventions:
* Python floats are modelled as exact rationals (`ℚ`); the Python `round(x, n)`
  (round-half-to-even at `n` decimal digits) is modelled by `pyRound`.
* `np.linalg.norm(chroma)` is an external library call; it is passed to the
  chord detector as an explicit parameter `nrm` (theorems that depend on its
  value carry the hypothesis tying `nrm` to the Euclidean norm).
* The MongoDB `videos` collection is modelled as a list of job documents;
  `update_one` with a `$set` payload updates the first matching document only.
* Timestamps (`datetime.utcnow()`) are modelled as explicit `ℕ` parameters.
-/

namespace PickPerfect

/-- The Python `round` to an integer: round half to even (bankers rounding). -/
def roundHalfEven (x : ℚ) : ℤ :=
  if x - ⌊x⌋ < 1 / 2 then ⌊x⌋
  else if 1 / 2 < x - ⌊x⌋ then ⌊x⌋ + 1
  else if ⌊x⌋ % 2 = 0 then ⌊x⌋ else ⌊x⌋ + 1

/-- The Python `round(x, n)`: round to `n` decimal digits, half to even. -/
def pyRound (x : ℚ) (n : ℕ) : ℚ :=
  (roundHalfEven (x * 10 ^ n) : ℚ) / 10 ^ n

/-- The descriptor bag produced by `analyze_audio_features` and consumed by
`detect_chords` and `detect_rhythm` (spec §3). -/
structure Features where
  duration_sec : ℚ
  tempo_bpm : ℚ
  onset_count : ℕ
  rms_energy_mean : ℚ
  rms_energy_std : ℚ
  spectral_centroid_mean : ℚ
  spectral_rolloff_mean : ℚ
  zero_crossing_rate_mean : ℚ
  chroma_mean : List ℚ
deriving DecidableEq

/-- One entry of `detected_chords` in `detect_chords`:
`{"chord": ..., "confidence": ...}`. -/
structure ChordCandidate where
  chord : String
  confidence : ℚ
deriving DecidableEq

/-- Default candidate used only to state `headD` of the (always nonempty)
ranked list. -/
def cdefault : ChordCandidate := ⟨"", 0⟩

/-- Result of `detect_chords`: either the structured error dict
`{"error": ...}` or `{"top_chord": ..., "alternatives": ...}`. -/
inductive ChordResult where
  | error (msg : String)
  | ok (top_chord : ChordCandidate) (alternatives : List ChordCandidate)
deriving DecidableEq

/-- Entry `i` of `pitch_classes` in `detect_chords`. -/
def pitchClass : ℕ → String
  | 0 => "C"
  | 1 => "C#"
  | 2 => "D"
  | 3 => "D#"
  | 4 => "E"
  | 5 => "F"
  | 6 => "F#"
  | 7 => "G"
  | 8 => "G#"
  | 9 => "A"
  | 10 => "A#"
  | 11 => "B"
  | _ => ""

/-- Template `chord_templates["major"]`: root, major third (+4), perfect fifth (+7). -/
def majorTemplate : List ℚ := [1, 0, 0, 0, 1, 0, 0, 1, 0, 0, 0, 0]

/-- Template `chord_templates["minor"]`: root, minor third (+3), perfect fifth (+7). -/
def minorTemplate : List ℚ := [1, 0, 0, 1, 0, 0, 0, 1, 0, 0, 0, 0]

/-- Model of `np.roll(t, i)`: cyclic shift right by `i`; entry `j` of the result is
entry `(j - i) mod len` of `t`. -/
def npRoll (t : List ℚ) (i : ℕ) : List ℚ :=
  List.ofFn fun j : Fin t.length =>
    t.getD ((j.val + t.length - i % t.length) % t.length) 0

/-- Model of `np.dot` on rational vectors. -/
def dotQ (a b : List ℚ) : ℚ := (List.zipWith (fun x y => x * y) a b).sum

/-- Normalization `chroma / (np.linalg.norm(chroma) + 1e-6)`, with the externally computed
norm passed in as `nrm`. -/
def normalizeChroma (chroma : List ℚ) (nrm : ℚ) : List ℚ :=
  chroma.map fun x => x / (nrm + 1 / 1000000)

/-- The `detected_chords` list of `detect_chords` before sorting: for each of
the 12 roots (ascending) and each quality (major then minor, the dict
insertion order), the candidate name and `round(np.dot(chroma, rotated), 4)`. -/
def chordCandidates (chroma : List ℚ) (nrm : ℚ) : List ChordCandidate :=
  (List.range 12).flatMap fun i =>
    [ ⟨pitchClass i ++ " major",
        pyRound (dotQ (normalizeChroma chroma nrm) (npRoll majorTemplate i)) 4⟩,
      ⟨pitchClass i ++ " minor",
        pyRound (dotQ (normalizeChroma chroma nrm) (npRoll minorTemplate i)) 4⟩ ]

/-- The sort key of `detected_chords.sort(key=..., reverse=True)`: `a`
ranks no lower than `b`. -/
def rankGE (a b : ChordCandidate) : Prop := b.confidence ≤ a.confidence

instance : DecidableRel rankGE :=
  fun a b => inferInstanceAs (Decidable (b.confidence ≤ a.confidence))

instance : IsTotal ChordCandidate rankGE :=
  ⟨fun a b => le_total b.confidence a.confidence⟩

instance : IsTrans ChordCandidate rankGE :=
  ⟨fun _ _ _ h₁ h₂ => le_trans h₂ h₁⟩

/-- List `detected_chords` after the stable descending sort
(`sort(key=lambda x: x["confidence"], reverse=True)`): the Python sort is
stable, modelled by the (stable) insertion sort. -/
def rankedChords (chroma : List ℚ) (nrm : ℚ) : List ChordCandidate :=
  List.insertionSort rankGE (chordCandidates chroma nrm)

/-- Function `detect_chords(features)` with the external `np.linalg.norm` value `nrm`. -/
def detect_chords (f : Features) (nrm : ℚ) : ChordResult :=
  if f.chroma_mean.length ≠ 12 then
    ChordResult.error ("Invalid chroma_mean; expected 12 pitch classes")
  else
    ChordResult.ok ((rankedChords f.chroma_mean nrm).headD cdefault)
      ((rankedChords f.chroma_mean nrm).take 5)

/-- The successful payload of `detect_rhythm`. -/
structure RhythmInfo where
  tempo_bpm : ℚ
  strums_per_second : ℚ
  energy_consistency : ℚ
  rhythm_score : ℚ
  rhythm_quality : String
deriving DecidableEq

/-- Result of `detect_rhythm`: either the structured error dict or the
rhythm analysis payload. -/
inductive RhythmResult where
  | error (msg : String)
  | ok (info : RhythmInfo)
deriving DecidableEq

/-- The classification chain at the end of `detect_rhythm`. -/
def classifyRhythm (rhythm_score : ℚ) : String :=
  if rhythm_score ≥ 0.8 then "steady"
  else if rhythm_score ≥ 0.5 then "moderate"
  else "unstable"

/-- Function `detect_rhythm(features)`. -/
def detect_rhythm (f : Features) : RhythmResult :=
  let tempo := f.tempo_bpm
  let onset_count := f.onset_count
  let duration := f.duration_sec
  let rms_mean := f.rms_energy_mean
  let rms_std := f.rms_energy_std
  if duration ≤ 0 then RhythmResult.error ("Invalid audio duration")
  else
    let strums_per_second := (onset_count : ℚ) / duration
    let energy_consistency :=
      if rms_mean > 0 then 1 - min (rms_std / rms_mean) 1 else 0
    let tempo_score : ℚ := if 60 ≤ tempo ∧ tempo ≤ 180 then 1 else 0.5
    let rhythm_score :=
      pyRound ((0.4 * energy_consistency) + (0.3 * tempo_score) +
        (0.3 * min (strums_per_second / 4) 1)) 3
    RhythmResult.ok
      { tempo_bpm := pyRound tempo 2
        strums_per_second := pyRound strums_per_second 2
        energy_consistency := pyRound energy_consistency 3
        rhythm_score := rhythm_score
        rhythm_quality := classifyRhythm rhythm_score }

/-- The final performance dict of `evaluate_performance` (`details` flattened
into the two fields it carries). -/
structure PerformanceResult where
  score : ℚ
  grade : String
  feedback : String
  details_chord_confidence : ℚ
  details_rhythm_score : ℚ
deriving DecidableEq

/-- Extraction chain of the chord confidence (default `0.0` when the error
dict carries no `top_chord` entry, mirroring the dict lookup chain). -/
def chordConfidenceOf : ChordResult → ℚ
  | ChordResult.ok top _ => top.confidence
  | ChordResult.error _ => 0

/-- Extraction of the rhythm score (default `0.0` when the error dict
carries no `rhythm_score` entry, mirroring the dict lookup). -/
def rhythmScoreOf : RhythmResult → ℚ
  | RhythmResult.ok info => info.rhythm_score
  | RhythmResult.error _ => 0

/-- Function `evaluate_performance(chord_result, rhythm_result)`. -/
def evaluate_performance (chord_result : ChordResult)
    (rhythm_result : RhythmResult) : PerformanceResult :=
  let chord_confidence := chordConfidenceOf chord_result
  let rhythm_score := rhythmScoreOf rhythm_result
  let chord_confidence := min (max chord_confidence 0) 1
  let rhythm_score := min (max rhythm_score 0) 1
  let final_score := (0.6 * chord_confidence) + (0.4 * rhythm_score)
  let final_score_percent := pyRound (final_score * 100) 1
  if final_score_percent ≥ 85 then
    { score := final_score_percent, grade := "Excellent",
      feedback := "Strong chord accuracy with very steady rhythm.",
      details_chord_confidence := pyRound chord_confidence 3,
      details_rhythm_score := pyRound rhythm_score 3 }
  else if final_score_percent ≥ 70 then
    { score := final_score_percent, grade := "Good",
      feedback := "Mostly correct chords with decent rhythm stability.",
      details_chord_confidence := pyRound chord_confidence 3,
      details_rhythm_score := pyRound rhythm_score 3 }
  else if final_score_percent ≥ 50 then
    { score := final_score_percent, grade := "Fair",
      feedback := "Chords are recognizable but rhythm needs improvement.",
      details_chord_confidence := pyRound chord_confidence 3,
      details_rhythm_score := pyRound rhythm_score 3 }
  else
    { score := final_score_percent, grade := "Needs Practice",
      feedback := "Work on both chord accuracy and rhythmic consistency.",
      details_chord_confidence := pyRound chord_confidence 3,
      details_rhythm_score := pyRound rhythm_score 3 }

/-- The embedded `analysis` sub-document written by `save_analysis_result`. -/
structure Analysis where
  chords : ChordResult
  rhythm : RhythmResult
  performance_score : PerformanceResult
deriving DecidableEq

/-- A document of the `videos` collection, restricted to the fields the
pipeline reads or writes (spec §3 job record). -/
structure Job where
  s3_key : String
  status : String
  analysis : Option Analysis
  created_at : ℕ
  updated_at : ℕ
  analyzed_at : Option ℕ
deriving DecidableEq

/-- MongoDB `update_one`: apply `f` to the first document matching `p`,
leave everything else unchanged (no match: no document changes). -/
def updateFirst (p : Job → Bool) (f : Job → Job) : List Job → List Job
  | [] => []
  | j :: js => if p j then f j :: js else j :: updateFirst p f js

/-- Number of documents whose `s3_key` equals `k`. -/
def countKey (db : List Job) (k : String) : ℕ :=
  (db.filter fun j => j.s3_key == k).length

/-- Function `save_analysis_result(s3_key, chord_result, rhythm_result,
performance_score)`: one `update_one` keyed by `s3_key`, `$set`-ing the
embedded `analysis`, `status: "analyzed"` and `analyzed_at` (`now` models the
`datetime.utcnow()` call). The no-match case is logged and not escalated. -/
def save_analysis_result (db : List Job) (s3_key : String)
    (chord_result : ChordResult) (rhythm_result : RhythmResult)
    (performance_score : PerformanceResult) (now : ℕ) : List Job :=
  updateFirst (fun j => j.s3_key == s3_key)
    (fun j => { j with
      analysis := some ⟨chord_result, rhythm_result, performance_score⟩,
      status := "analyzed",
      analyzed_at := some now }) db

/-- Function `update_video_status(s3_key, status)`: one `update_one` keyed by
`s3_key`, `$set`-ing `status` and `updated_at`. -/
def update_video_status (db : List Job) (s3_key : String) (status : String)
    (now : ℕ) : List Job :=
  updateFirst (fun j => j.s3_key == s3_key)
    (fun j => { j with status := status, updated_at := now }) db

/-- The persistence trace of the Celery task `process_music_video`, given the
descriptor bag `f` computed by the (external I/O) download / extract /
analyze stages and the norm `nrm` of its chroma vector: detect chords,
detect rhythm, evaluate performance, `save_analysis_result`, then
`update_video_status(s3_key, "processed")`; returns the updated collection
and the task return value `{"s3_key": ..., "status": "completed"}`. -/
def process_music_video (db : List Job) (s3_key : String) (f : Features)
    (nrm : ℚ) (t₁ t₂ : ℕ) : List Job × String × String :=
  let chord_result := detect_chords f nrm
  let rhythm_result := detect_rhythm f
  let performance_score := evaluate_performance chord_result rhythm_result
  let db₁ := save_analysis_result db s3_key chord_result rhythm_result
    performance_score t₁
  let db₂ := update_video_status db₁ s3_key ("processed") t₂
  (db₂, s3_key, "completed")

/-- Returns `true` iff a chord result is the non-error constructor. -/
def ChordResult.isOk : ChordResult → Bool
  | ChordResult.ok _ _ => true
  | ChordResult.error _ => false

/-- Returns `true` iff a rhythm result is the non-error constructor. -/
def RhythmResult.isOk : RhythmResult → Bool
  | RhythmResult.ok _ => true
  | RhythmResult.error _ => false

/-! ### Concrete inputs used by witnesses and counterexamples -/

/-- A chroma vector with a rational Euclidean norm: `‖(3,4,0,…,0)‖ = 5`. -/
def chroma0 : List ℚ := [3, 4, 0, 0, 0, 0, 0, 0, 0, 0, 0, 0]

/-- A well-formed descriptor bag (12-entry chroma, positive duration). -/
def f0 : Features :=
  { duration_sec := 4, tempo_bpm := 120, onset_count := 8,
    rms_energy_mean := 1 / 2, rms_energy_std := 1 / 10,
    spectral_centroid_mean := 0, spectral_rolloff_mean := 0,
    zero_crossing_rate_mean := 0, chroma_mean := chroma0 }

/-- A descriptor bag with an empty chroma vector. -/
def fbad : Features := { f0 with chroma_mean := [] }

/-- A descriptor bag with zero duration. -/
def fzero : Features := { f0 with duration_sec := 0 }

/-- A freshly uploaded job document. -/
def job0 : Job :=
  { s3_key := "videos/vid_1.mp4", status := "UPLOADED", analysis := none,
    created_at := 0, updated_at := 0, analyzed_at := none }

/-- An arbitrary concrete performance payload. -/
def perf0 : PerformanceResult := ⟨0, "", "", 0, 0⟩

/-! ### Helper lemmas about the persistence model -/

theorem find?_updateFirst (k : String) (f : Job → Job)
    (hf : ∀ j, (f j).s3_key = j.s3_key) (db : List Job) :
    (updateFirst (fun j => j.s3_key == k) f db).find? (fun j => j.s3_key == k)
      = (db.find? (fun j => j.s3_key == k)).map f := by
  induction db with
  | nil => rfl
  | cons j js ih =>
    cases hb : (j.s3_key == k : Bool) <;>
      simp [updateFirst, List.find?, hb, hf, ih]

theorem updateFirst_updateFirst (p : Job → Bool) (f g : Job → Job)
    (hg : ∀ j, p (g j) = p j) (db : List Job) :
    updateFirst p f (updateFirst p g db)
      = updateFirst p (fun j => f (g j)) db := by
  induction db with
  | nil => rfl
  | cons j js ih =>
    cases hb : p j <;> simp [updateFirst, hb, hg, ih]

theorem countKey_updateFirst (k' k : String) (f : Job → Job)
    (hf : ∀ j, (f j).s3_key = j.s3_key) (db : List Job) :
    countKey (updateFirst (fun j => j.s3_key == k) f db) k' = countKey db k' := by
  induction db with
  | nil => rfl
  | cons j js ih =>
    simp only [countKey] at ih ⊢
    cases hb : (j.s3_key == k : Bool) <;>
      cases hb' : (j.s3_key == k' : Bool) <;>
        simp [updateFirst, List.filter_cons, hb, hb', hf, ih]

theorem updateFirst_no_match (p : Job → Bool) (f : Job → Job) (db : List Job)
    (h : ∀ j ∈ db, p j = false) : updateFirst p f db = db := by
  induction db with
  | nil => rfl
  | cons j js ih =>
    have hj := h j (List.mem_cons_self j js)
    simp [updateFirst, hj, ih fun j' hj' => h j' (List.mem_cons_of_mem j hj')]

theorem mem_updateFirst_key (k : String) (f : Job → Job)
    (db : List Job) (hdb : countKey db k = 1) :
    ∀ j ∈ updateFirst (fun j => j.s3_key == k) f db, j.s3_key = k →
      ∃ j₀, j₀.s3_key = k ∧ j = f j₀ := by
  induction db with
  | nil => intro j hj; simp [updateFirst] at hj
  | cons j js ih =>
    cases hb : (j.s3_key == k : Bool) with
    | false =>
      have hj : ¬ j.s3_key = k := by simpa using hb
      have hdb' : countKey js k = 1 := by
        simpa [countKey, List.filter_cons, hb] using hdb
      intro j' hj' hk'
      simp only [updateFirst, hb, Bool.false_eq_true, if_false] at hj'
      rcases List.mem_cons.mp hj' with h | h
      · exact absurd (h ▸ hk') hj
      · exact ih hdb' j' h hk'
    | true =>
      have hj : j.s3_key = k := by simpa using hb
      have hnone : ∀ j' ∈ js, ¬ j'.s3_key = k := by
        have h1 := hdb
        simp [countKey, List.filter_cons, hb, List.length_eq_zero] at h1
        exact h1
      intro j' hj' hk'
      simp only [updateFirst, hb, if_true] at hj'
      rcases List.mem_cons.mp hj' with h | h
      · exact ⟨j, hj, h⟩
      · exact absurd hk' (hnone j' h)

/-! ### Helper lemmas about the stable descending sort -/

theorem filter_orderedInsert (q : ℚ) (x : ChordCandidate)
    (l : List ChordCandidate) :
    (List.orderedInsert rankGE x l).filter (fun c => c.confidence == q)
      = if x.confidence = q
          then x :: l.filter (fun c => c.confidence == q)
          else l.filter (fun c => c.confidence == q) := by
  induction l with
  | nil =>
    by_cases hx : x.confidence = q <;>
      simp [List.orderedInsert, List.filter_cons, hx]
  | cons b l ih =>
    by_cases hxb : rankGE x b
    · by_cases hx : x.confidence = q <;> by_cases hb : b.confidence = q <;>
        simp [List.orderedInsert, hxb, List.filter_cons, hx, hb]
    · have hlt : x.confidence < b.confidence := not_le.mp hxb
      by_cases hx : x.confidence = q
      · have hb : ¬ b.confidence = q := by
          intro hbq
          rw [hbq, ← hx] at hlt
          exact lt_irrefl _ hlt
        simp [List.orderedInsert, hxb, List.filter_cons, hb, hx, ih]
      · simp [List.orderedInsert, hxb, List.filter_cons, hx, ih]

theorem filter_insertionSort (q : ℚ) (l : List ChordCandidate) :
    (List.insertionSort rankGE l).filter (fun c => c.confidence == q)
      = l.filter (fun c => c.confidence == q) := by
  induction l with
  | nil => rfl
  | cons a l ih =>
    rw [List.insertionSort, filter_orderedInsert]
    by_cases hx : a.confidence = q <;> simp [List.filter_cons, hx, ih]

/-! ### Claim theorems -/

/-- C6: for every descriptor bag whose `chroma_mean` does not have exactly 12
entries, `detect_chords` returns the structured error dict
`{"error": "Invalid chroma_mean; expected 12 pitch classes"}`; being a total
function of the embedding, it raises no exception. -/
theorem detect_chords_error_on_bad_chroma (f : Features) (nrm : ℚ)
    (h : f.chroma_mean.length ≠ 12) :
    detect_chords f nrm
      = ChordResult.error ("Invalid chroma_mean; expected 12 pitch classes") := by
  simp [detect_chords, h]

/-- Witness for C6 at the bag with an empty chroma vector. -/
theorem detect_chords_error_on_bad_chroma_witness :
    fbad.chroma_mean.length ≠ 12 ∧
      detect_chords fbad 0
        = ChordResult.error ("Invalid chroma_mean; expected 12 pitch classes") :=
  ⟨by decide, detect_chords_error_on_bad_chroma fbad 0 (by decide)⟩

/-- C7: for every descriptor bag with `duration_sec ≤ 0`, `detect_rhythm`
returns the structured error dict `{"error": "Invalid audio duration"}`
before any division by the duration is computed (the result contains no
derived quantity). -/
theorem detect_rhythm_error_on_nonpositive_duration (f : Features)
    (h : f.duration_sec ≤ 0) :
    detect_rhythm f = RhythmResult.error ("Invalid audio duration") := by
  simp [detect_rhythm, h]

/-- Witness for C7 at the bag with `duration_sec = 0`. -/
theorem detect_rhythm_error_on_nonpositive_duration_witness :
    fzero.duration_sec ≤ 0 ∧
      detect_rhythm fzero = RhythmResult.error ("Invalid audio duration") :=
  ⟨by decide, detect_rhythm_error_on_nonpositive_duration fzero (by decide)⟩

/-- C8: result persistence is idempotent. Saving twice for the same storage
key equals saving the latest payload once; a save never changes how many
documents carry any key (no duplication); with no matching document the save
is a no-op (and, being total, raises no error); and when exactly one document
matches the key, the save leaves that document with the embedded analysis
equal to the saved payload and status `analyzed`. -/
theorem save_analysis_result_idempotent (db : List Job) (k k' : String)
    (c₁ c₂ : ChordResult) (r₁ r₂ : RhythmResult)
    (p₁ p₂ : PerformanceResult) (t₁ t₂ : ℕ) :
    save_analysis_result (save_analysis_result db k c₁ r₁ p₁ t₁) k c₂ r₂ p₂ t₂
        = save_analysis_result db k c₂ r₂ p₂ t₂
      ∧ countKey (save_analysis_result db k c₁ r₁ p₁ t₁) k' = countKey db k'
      ∧ ((∀ j ∈ db, j.s3_key ≠ k) →
          save_analysis_result db k c₁ r₁ p₁ t₁ = db)
      ∧ (countKey db k = 1 →
          ∀ j ∈ save_analysis_result db k c₁ r₁ p₁ t₁, j.s3_key = k →
            j.analysis = some ⟨c₁, r₁, p₁⟩ ∧ j.status = "analyzed") := by
  refine ⟨?_, ?_, ?_, ?_⟩
  · exact (updateFirst_updateFirst (fun j => j.s3_key == k)
      (fun j => { j with
        analysis := some ⟨c₂, r₂, p₂⟩
        status := "analyzed"
        analyzed_at := some t₂ })
      (fun j => { j with
        analysis := some ⟨c₁, r₁, p₁⟩
        status := "analyzed"
        analyzed_at := some t₁ })
      (fun j => rfl) db).trans rfl
  · exact countKey_updateFirst k' k
      (fun j => { j with
        analysis := some ⟨c₁, r₁, p₁⟩
        status := "analyzed"
        analyzed_at := some t₁ })
      (fun j => rfl) db
  · intro h
    exact updateFirst_no_match _ _ db fun j hj => by simp [h j hj]
  · intro h1 j hj hk
    obtain ⟨j₀, hj₀, rfl⟩ := mem_updateFirst_key k _ db h1 j hj hk
    exact ⟨rfl, rfl⟩

/-- Witness for C8: the double save collapses to the latest save on a
concrete one-document collection. -/
theorem save_analysis_result_idempotent_witness :
    save_analysis_result
        (save_analysis_result [job0] ("videos/vid_1.mp4")
          (ChordResult.error ("e1")) (RhythmResult.error ("e1")) perf0 1)
        ("videos/vid_1.mp4")
        (ChordResult.error ("e2")) (RhythmResult.error ("e2")) perf0 2
      = save_analysis_result [job0] ("videos/vid_1.mp4")
          (ChordResult.error ("e2")) (RhythmResult.error ("e2")) perf0 2 :=
  (save_analysis_result_idempotent [job0] ("videos/vid_1.mp4") ("videos/vid_1.mp4")
    (ChordResult.error ("e1")) (ChordResult.error ("e2"))
    (RhythmResult.error ("e1")) (RhythmResult.error ("e2"))
    perf0 perf0 1 2).1

/-- C9 counterexample: `save_analysis_result` transitions `status` (from
`UPLOADED` to `analyzed`) but does not refresh `updated_at` — after a save at
time 5 the stored job still carries the old `updated_at = 0` (the write sets
`analyzed_at` instead), so not every status transition refreshes
`updated_at`. -/
theorem save_analysis_result_updated_at_cex :
    ((save_analysis_result [job0] ("videos/vid_1.mp4")
        (ChordResult.error ("e")) (RhythmResult.error ("e")) perf0 5).headD
        job0).status = "analyzed"
      ∧ job0.status = "UPLOADED"
      ∧ ((save_analysis_result [job0] ("videos/vid_1.mp4")
          (ChordResult.error ("e")) (RhythmResult.error ("e")) perf0 5).headD
          job0).updated_at = job0.updated_at
      ∧ job0.updated_at ≠ 5
      ∧ ((save_analysis_result [job0] ("videos/vid_1.mp4")
          (ChordResult.error ("e")) (RhythmResult.error ("e")) perf0 5).headD
          job0).analyzed_at = some 5 :=
  ⟨rfl, rfl, rfl, by decide, rfl⟩

/-- C9 amended: `update_video_status` refreshes `updated_at` in the same
update as its status write, while `save_analysis_result` — the other
operation that writes `status` — sets `analyzed_at` and leaves `updated_at`
unchanged. -/
theorem status_write_timestamps (db : List Job) (k s : String)
    (c : ChordResult) (r : RhythmResult) (p : PerformanceResult)
    (t : ℕ) (j₀ : Job)
    (h : db.find? (fun j => j.s3_key == k) = some j₀) :
    (update_video_status db k s t).find? (fun j => j.s3_key == k)
        = some { j₀ with status := s, updated_at := t }
      ∧ (save_analysis_result db k c r p t).find? (fun j => j.s3_key == k)
        = some { j₀ with
            status := "analyzed"
            analysis := some ⟨c, r, p⟩
            analyzed_at := some t }
      ∧ ((save_analysis_result db k c r p t).find?
          (fun j => j.s3_key == k)).map Job.updated_at
        = some j₀.updated_at := by
  have h1 := find?_updateFirst k
    (fun j => { j with status := s, updated_at := t }) (fun j => rfl) db
  have h2 := find?_updateFirst k
    (fun j => { j with
      analysis := some ⟨c, r, p⟩
      status := "analyzed"
      analyzed_at := some t }) (fun j => rfl) db
  rw [h] at h1 h2
  exact ⟨by rw [update_video_status, h1]; rfl,
    by rw [save_analysis_result, h2]; rfl,
    by rw [save_analysis_result, h2]; rfl⟩

/-- Witness for the C9 amended theorem on a concrete one-document collection. -/
theorem status_write_timestamps_witness :
    ([job0].find? (fun j => j.s3_key == "videos/vid_1.mp4") = some job0)
      ∧ (update_video_status [job0] ("videos/vid_1.mp4") ("uploaded") 7).find?
          (fun j => j.s3_key == "videos/vid_1.mp4")
        = some { job0 with status := "uploaded", updated_at := 7 } :=
  ⟨rfl, (status_write_timestamps [job0] ("videos/vid_1.mp4") ("uploaded")
    (ChordResult.error ("e")) (RhythmResult.error ("e")) perf0 7 job0 rfl).1⟩

/-- C1 counterexample: on a successful run over a well-formed descriptor bag
(both detectors return non-error results), the status left in the record at
the end of `process_music_video` is `"processed"`, not `"analyzed"` — the
final task call `update_video_status(s3_key, "processed")` overwrites the
`"analyzed"` value written by `save_analysis_result`. The analysis result is
embedded. -/
theorem pipeline_final_status_cex :
    ((process_music_video [job0] ("videos/vid_1.mp4") f0 5 1 2).1.headD
        job0).status = "processed"
      ∧ ("processed" : String) ≠ "analyzed"
      ∧ ((process_music_video [job0] ("videos/vid_1.mp4") f0 5 1 2).1.headD
          job0).analysis.isSome = true
      ∧ (detect_chords f0 5).isOk = true
      ∧ (detect_rhythm f0).isOk = true :=
  ⟨rfl, by decide, rfl, by decide, by decide⟩

/-- C1 amended: after a successful pipeline run, `save_analysis_result`
leaves the matched job with status `"analyzed"` and the embedded analysis,
but `process_music_video` then sets status to `"processed"`; the final
persisted record has status `"processed"` with the analysis (chords, rhythm,
performance) embedded and `analyzed_at` set, and the task returns
`{"s3_key": ..., "status": "completed"}`. -/
theorem pipeline_final_record (db : List Job) (k : String) (f : Features)
    (nrm : ℚ) (t₁ t₂ : ℕ) (j₀ : Job)
    (h : db.find? (fun j => j.s3_key == k) = some j₀) :
    (save_analysis_result db k (detect_chords f nrm) (detect_rhythm f)
        (evaluate_performance (detect_chords f nrm) (detect_rhythm f))
        t₁).find? (fun j => j.s3_key == k)
      = some { j₀ with
          status := "analyzed"
          analysis := some ⟨detect_chords f nrm, detect_rhythm f,
            evaluate_performance (detect_chords f nrm) (detect_rhythm f)⟩
          analyzed_at := some t₁ }
    ∧ (process_music_video db k f nrm t₁ t₂).1.find?
        (fun j => j.s3_key == k)
      = some { j₀ with
          status := "processed"
          updated_at := t₂
          analysis := some ⟨detect_chords f nrm, detect_rhythm f,
            evaluate_performance (detect_chords f nrm) (detect_rhythm f)⟩
          analyzed_at := some t₁ }
    ∧ (process_music_video db k f nrm t₁ t₂).2 = (k, "completed") := by
  have h2 := find?_updateFirst k
    (fun j => { j with
      analysis := some ⟨detect_chords f nrm, detect_rhythm f,
        evaluate_performance (detect_chords f nrm) (detect_rhythm f)⟩
      status := "analyzed"
      analyzed_at := some t₁ }) (fun j => rfl) db
  have h3 := find?_updateFirst k
    (fun j => { j with
      status := "processed"
      updated_at := t₂
      analysis := some ⟨detect_chords f nrm, detect_rhythm f,
        evaluate_performance (detect_chords f nrm) (detect_rhythm f)⟩
      analyzed_at := some t₁ }) (fun j => rfl) db
  rw [h] at h2 h3
  refine ⟨by rw [save_analysis_result, h2]; rfl, ?_, rfl⟩
  show (update_video_status (save_analysis_result db k _ _ _ t₁) k
    ("processed") t₂).find? (fun j => j.s3_key == k) = _
  rw [update_video_status, save_analysis_result]
  rw [updateFirst_updateFirst
    (fun j => j.s3_key == k)
    (fun j => { j with status := "processed", updated_at := t₂ })
    (fun j => { j with
      analysis := some ⟨detect_chords f nrm, detect_rhythm f,
        evaluate_performance (detect_chords f nrm) (detect_rhythm f)⟩
      status := "analyzed"
      analyzed_at := some t₁ })
    (fun j => rfl) db]
  exact h3

/-- Witness for the C1 amended theorem on a concrete one-document collection. -/
theorem pipeline_final_record_witness :
    ([job0].find? (fun j => j.s3_key == "videos/vid_1.mp4") = some job0)
      ∧ (process_music_video [job0] ("videos/vid_1.mp4") f0 5 1 2).2
        = ("videos/vid_1.mp4", "completed") :=
  ⟨rfl, (pipeline_final_record [job0] ("videos/vid_1.mp4") f0 5 1 2 job0
    rfl).2.2⟩

/-- C2: for every descriptor bag with a 12-entry chroma vector,
`detect_chords` enumerates all 24 root-by-quality candidates (roots
ascending, major before minor), the ranked list is a permutation of them
sorted non-increasingly by confidence, ties keep the enumeration order (the
filter at every confidence value is unchanged by the stable sort), the head
of the ranked list has confidence at least that of every other candidate, and the
returned value is that head together with the first 5 ranked candidates as
the alternatives. -/
theorem detect_chords_ranking (f : Features) (nrm : ℚ)
    (h : f.chroma_mean.length = 12) :
    (chordCandidates f.chroma_mean nrm).length = 24
      ∧ (chordCandidates f.chroma_mean nrm).map ChordCandidate.chord
        = ["C major", "C minor", "C# major", "C# minor", "D major", "D minor",
           "D# major", "D# minor", "E major", "E minor", "F major", "F minor",
           "F# major", "F# minor", "G major", "G minor", "G# major",
           "G# minor", "A major", "A minor", "A# major", "A# minor",
           "B major", "B minor"]
      ∧ (rankedChords f.chroma_mean nrm).Perm (chordCandidates f.chroma_mean nrm)
      ∧ (rankedChords f.chroma_mean nrm).Sorted rankGE
      ∧ (∀ q : ℚ,
          (rankedChords f.chroma_mean nrm).filter (fun c => c.confidence == q)
            = (chordCandidates f.chroma_mean nrm).filter
                (fun c => c.confidence == q))
      ∧ (∀ c ∈ rankedChords f.chroma_mean nrm,
          c.confidence
            ≤ ((rankedChords f.chroma_mean nrm).headD cdefault).confidence)
      ∧ detect_chords f nrm
        = ChordResult.ok ((rankedChords f.chroma_mean nrm).headD cdefault)
            ((rankedChords f.chroma_mean nrm).take 5) := by
  refine ⟨rfl, rfl, List.perm_insertionSort rankGE _,
    List.sorted_insertionSort rankGE _, fun q => filter_insertionSort q _,
    ?_, by simp [detect_chords, h]⟩
  intro c hc
  have hs : (rankedChords f.chroma_mean nrm).Sorted rankGE :=
    List.sorted_insertionSort rankGE _
  cases hr : rankedChords f.chroma_mean nrm with
  | nil => rw [hr] at hc; cases hc
  | cons a t =>
    rw [hr] at hc hs
    simp only [List.headD_cons]
    rcases List.mem_cons.mp hc with rfl | hct
    · exact le_refl _
    · exact (List.sorted_cons.mp hs).1 c hct

/-- Witness for C2 at a concrete 12-entry chroma vector. -/
theorem detect_chords_ranking_witness :
    f0.chroma_mean.length = 12 ∧ (chordCandidates f0.chroma_mean 5).length = 24 :=
  ⟨by decide, (detect_chords_ranking f0 5 (by decide)).1⟩

/-! ### Helper lemmas for evaluating `pyRound` -/

theorem pyRound_low (x : ℚ) (n : ℕ) (z : ℤ) (h1 : (z : ℚ) ≤ x * 10 ^ n)
    (h2 : x * 10 ^ n < (z : ℚ) + 1 / 2) : pyRound x n = (z : ℚ) / 10 ^ n := by
  have hfl : ⌊x * 10 ^ n⌋ = z := Int.floor_eq_iff.mpr ⟨h1, by linarith⟩
  simp only [pyRound, roundHalfEven, hfl]
  rw [if_pos (by linarith)]

theorem pyRound_high (x : ℚ) (n : ℕ) (z : ℤ) (h1 : (z : ℚ) + 1 / 2 < x * 10 ^ n)
    (h2 : x * 10 ^ n < (z : ℚ) + 1) : pyRound x n = ((z : ℚ) + 1) / 10 ^ n := by
  have hfl : ⌊x * 10 ^ n⌋ = z := Int.floor_eq_iff.mpr ⟨by linarith, by linarith⟩
  simp only [pyRound, roundHalfEven, hfl]
  rw [if_neg (by linarith), if_pos (by linarith)]
  push_cast
  ring

/-- C3 amended: each candidate of the chord enumeration stores as its score
`round(·, 4)` of the dot product of the normalized chroma vector with the
binary quality template cyclically rotated to its root: candidate `2*i` is
root `i` major, candidate `2*i + 1` is root `i` minor. -/
theorem chord_candidate_scores (chroma : List ℚ) (nrm : ℚ) (i : ℕ)
    (hi : i < 12) :
    (chordCandidates chroma nrm)[2 * i]?
        = some ⟨pitchClass i ++ " major",
            pyRound (dotQ (normalizeChroma chroma nrm)
              (npRoll majorTemplate i)) 4⟩
      ∧ (chordCandidates chroma nrm)[2 * i + 1]?
        = some ⟨pitchClass i ++ " minor",
            pyRound (dotQ (normalizeChroma chroma nrm)
              (npRoll minorTemplate i)) 4⟩ := by
  interval_cases i <;> exact ⟨rfl, rfl⟩

/-- Witness for the C3 amended theorem at root 0 (C major / C minor). -/
theorem chord_candidate_scores_witness :
    0 < 12
      ∧ (chordCandidates chroma0 5)[0]?
        = some ⟨pitchClass 0 ++ " major",
            pyRound (dotQ (normalizeChroma chroma0 5)
              (npRoll majorTemplate 0)) 4⟩ :=
  ⟨by decide, (chord_candidate_scores chroma0 5 0 (by decide)).1⟩

/-- C3 counterexample: with the chroma vector (3,4,0,…,0), whose Euclidean
norm is exactly 5, the first enumerated candidate is "C major" and its stored
confidence `round(·, 4) = 0.6` differs from the exact dot product
`3000000/5000001` of the normalized chroma with the (unrotated) major
template — the stored score is the rounded dot product, not the dot product
itself. -/
theorem chord_score_rounding_cex :
    (0 : ℚ) ≤ 5
      ∧ (5 : ℚ) * 5 = (chroma0.map fun x => x * x).sum
      ∧ ((chordCandidates chroma0 5).headD cdefault).chord = "C major"
      ∧ ((chordCandidates chroma0 5).headD cdefault).confidence
          ≠ dotQ (normalizeChroma chroma0 5) (npRoll majorTemplate 0) := by
  have hroll : npRoll majorTemplate 0 = majorTemplate := by decide
  have hX : dotQ (normalizeChroma chroma0 5) (npRoll majorTemplate 0)
      = 3000000 / 5000001 := by
    rw [hroll]
    simp only [dotQ, normalizeChroma, majorTemplate, chroma0, List.map_cons,
      List.map_nil, List.zipWith_cons_cons, List.zipWith_nil_right,
      List.sum_cons, List.sum_nil]
    norm_num
  have hP : pyRound ((3000000 : ℚ) / 5000001) 4 = 3 / 5 := by
    have := pyRound_high ((3000000 : ℚ) / 5000001) 4 5999
      (by norm_num) (by norm_num)
    rw [this]
    norm_num
  refine ⟨by norm_num, by simp [chroma0]; norm_num, rfl, ?_⟩
  show pyRound (dotQ (normalizeChroma chroma0 5) (npRoll majorTemplate 0)) 4
    ≠ dotQ (normalizeChroma chroma0 5) (npRoll majorTemplate 0)
  rw [hX, hP]
  norm_num

/-- C4: for every descriptor bag with positive duration, `detect_rhythm`
returns a payload whose `rhythm_score` is
`round(0.4·energy_consistency + 0.3·tempo_score + 0.3·min(strums_per_second/4, 1), 3)`
with `strums_per_second = onset_count / duration_sec`,
`energy_consistency = 1 − min(rms_std/rms_mean, 1)` when `rms_mean > 0` else
`0`, and `tempo_score = 1` iff tempo lies in `[60, 180]` else `0.5`; the
quality label classifies the score with inclusive lower bounds:
`steady` iff `≥ 0.8`, `moderate` iff `0.5 ≤ · < 0.8`, `unstable` iff
`< 0.5` (so `0.8` is steady, `0.7999` and `0.5` moderate, `0.4999`
unstable). -/
theorem detect_rhythm_spec (f : Features) (hd : 0 < f.duration_sec) :
    ∃ info, detect_rhythm f = RhythmResult.ok info
      ∧ info.rhythm_score
        = pyRound ((0.4 * (if f.rms_energy_mean > 0
              then 1 - min (f.rms_energy_std / f.rms_energy_mean) 1 else 0))
            + (0.3 * (if 60 ≤ f.tempo_bpm ∧ f.tempo_bpm ≤ 180
              then 1 else 0.5))
            + (0.3 * min ((f.onset_count : ℚ) / f.duration_sec / 4) 1)) 3
      ∧ info.rhythm_quality = classifyRhythm info.rhythm_score
      ∧ (∀ q : ℚ, (classifyRhythm q = "steady" ↔ 0.8 ≤ q)
          ∧ (classifyRhythm q = "moderate" ↔ 0.5 ≤ q ∧ q < 0.8)
          ∧ (classifyRhythm q = "unstable" ↔ q < 0.5))
      ∧ classifyRhythm 0.8 = "steady"
      ∧ classifyRhythm 0.7999 = "moderate"
      ∧ classifyRhythm 0.5 = "moderate"
      ∧ classifyRhythm 0.4999 = "unstable" := by
  have hne : ¬ f.duration_sec ≤ 0 := not_le.mpr hd
  have heq : detect_rhythm f = RhythmResult.ok
      { tempo_bpm := pyRound f.tempo_bpm 2
        strums_per_second := pyRound ((f.onset_count : ℚ) / f.duration_sec) 2
        energy_consistency := pyRound (if f.rms_energy_mean > 0
          then 1 - min (f.rms_energy_std / f.rms_energy_mean) 1 else 0) 3
        rhythm_score := pyRound ((0.4 * (if f.rms_energy_mean > 0
            then 1 - min (f.rms_energy_std / f.rms_energy_mean) 1 else 0))
          + (0.3 * (if 60 ≤ f.tempo_bpm ∧ f.tempo_bpm ≤ 180 then 1 else 0.5))
          + (0.3 * min ((f.onset_count : ℚ) / f.duration_sec / 4) 1)) 3
        rhythm_quality := classifyRhythm (pyRound ((0.4 * (if f.rms_energy_mean > 0
            then 1 - min (f.rms_energy_std / f.rms_energy_mean) 1 else 0))
          + (0.3 * (if 60 ≤ f.tempo_bpm ∧ f.tempo_bpm ≤ 180 then 1 else 0.5))
          + (0.3 * min ((f.onset_count : ℚ) / f.duration_sec / 4) 1)) 3) } := by
    simp only [detect_rhythm]
    rw [if_neg hne]
  refine ⟨_, heq, rfl, rfl,
    fun q => ?_, by norm_num [classifyRhythm], by norm_num [classifyRhythm],
    by norm_num [classifyRhythm], by norm_num [classifyRhythm]⟩
  unfold classifyRhythm
  split_ifs with h1 h2
  · exact ⟨⟨fun _ => h1, fun _ => rfl⟩,
      ⟨fun hs => absurd hs (by decide),
        fun hq => absurd h1 (not_le.mpr hq.2)⟩,
      ⟨fun hs => absurd hs (by decide),
        fun hq => absurd h1 (not_le.mpr (hq.trans_le (by norm_num)))⟩⟩
  · exact ⟨⟨fun hs => absurd hs (by decide), fun h08 => absurd h08 h1⟩,
      ⟨fun _ => ⟨h2, not_le.mp h1⟩, fun _ => rfl⟩,
      ⟨fun hs => absurd hs (by decide),
        fun hq => absurd h2 (not_le.mpr hq)⟩⟩
  · exact ⟨⟨fun hs => absurd hs (by decide), fun h08 => absurd h08 h1⟩,
      ⟨fun hs => absurd hs (by decide), fun hq => absurd hq.1 h2⟩,
      ⟨fun _ => not_le.mp h2, fun _ => rfl⟩⟩

/-- Witness for C4 at a concrete positive-duration bag. -/
theorem detect_rhythm_spec_witness :
    0 < f0.duration_sec
      ∧ (∃ info, detect_rhythm f0 = RhythmResult.ok info) :=
  ⟨by decide, (detect_rhythm_spec f0 (by decide)).imp fun _ hi => hi.1⟩

/-! ### Helper lemmas about `evaluate_performance` -/

theorem performance_score_eq (cr : ChordResult) (rr : RhythmResult) :
    (evaluate_performance cr rr).score
      = pyRound (((0.6 * min (max (chordConfidenceOf cr) 0) 1)
          + (0.4 * min (max (rhythmScoreOf rr) 0) 1)) * 100) 1 := by
  simp only [evaluate_performance]
  split_ifs <;> rfl

theorem performance_grade_eq (cr : ChordResult) (rr : RhythmResult) :
    (evaluate_performance cr rr).grade
      = (if pyRound (((0.6 * min (max (chordConfidenceOf cr) 0) 1)
            + (0.4 * min (max (rhythmScoreOf rr) 0) 1)) * 100) 1 ≥ 85
          then "Excellent"
        else if pyRound (((0.6 * min (max (chordConfidenceOf cr) 0) 1)
            + (0.4 * min (max (rhythmScoreOf rr) 0) 1)) * 100) 1 ≥ 70
          then "Good"
        else if pyRound (((0.6 * min (max (chordConfidenceOf cr) 0) 1)
            + (0.4 * min (max (rhythmScoreOf rr) 0) 1)) * 100) 1 ≥ 50
          then "Fair"
        else "Needs Practice") := by
  simp only [evaluate_performance]
  split_ifs <;> rfl

theorem performance_feedback_eq (cr : ChordResult) (rr : RhythmResult) :
    (evaluate_performance cr rr).feedback
      = (if pyRound (((0.6 * min (max (chordConfidenceOf cr) 0) 1)
            + (0.4 * min (max (rhythmScoreOf rr) 0) 1)) * 100) 1 ≥ 85
          then "Strong chord accuracy with very steady rhythm."
        else if pyRound (((0.6 * min (max (chordConfidenceOf cr) 0) 1)
            + (0.4 * min (max (rhythmScoreOf rr) 0) 1)) * 100) 1 ≥ 70
          then "Mostly correct chords with decent rhythm stability."
        else if pyRound (((0.6 * min (max (chordConfidenceOf cr) 0) 1)
            + (0.4 * min (max (rhythmScoreOf rr) 0) 1)) * 100) 1 ≥ 50
          then "Chords are recognizable but rhythm needs improvement."
        else "Work on both chord accuracy and rhythmic consistency.") := by
  simp only [evaluate_performance]
  split_ifs <;> rfl

/-- C5: `evaluate_performance` is a pure total function; it clamps the chord
confidence and the rhythm score to `[0, 1]`, computes
`final_score_percent = round(100·(0.6·chord_confidence + 0.4·rhythm_score), 1)`,
and grades `≥ 85` Excellent, `≥ 70` Good, `≥ 50` Fair, otherwise Needs
Practice, each with its fixed feedback sentence; inputs `(0.9, 0.8)` yield
`86.0` Excellent and inputs `(0.5, 0.5)` yield exactly `50.0` Fair (boundary
inclusive). -/
theorem evaluate_performance_spec (cr : ChordResult) (rr : RhythmResult) :
    (0 ≤ min (max (chordConfidenceOf cr) 0) 1
        ∧ min (max (chordConfidenceOf cr) 0) 1 ≤ 1
        ∧ 0 ≤ min (max (rhythmScoreOf rr) 0) 1
        ∧ min (max (rhythmScoreOf rr) 0) 1 ≤ 1)
      ∧ (evaluate_performance cr rr).score
        = pyRound (100 * ((0.6 * min (max (chordConfidenceOf cr) 0) 1)
            + (0.4 * min (max (rhythmScoreOf rr) 0) 1))) 1
      ∧ (evaluate_performance cr rr).grade
        = (if (evaluate_performance cr rr).score ≥ 85 then "Excellent"
            else if (evaluate_performance cr rr).score ≥ 70 then "Good"
            else if (evaluate_performance cr rr).score ≥ 50 then "Fair"
            else "Needs Practice")
      ∧ (evaluate_performance cr rr).feedback
        = (if (evaluate_performance cr rr).score ≥ 85
              then "Strong chord accuracy with very steady rhythm."
            else if (evaluate_performance cr rr).score ≥ 70
              then "Mostly correct chords with decent rhythm stability."
            else if (evaluate_performance cr rr).score ≥ 50
              then "Chords are recognizable but rhythm needs improvement."
            else "Work on both chord accuracy and rhythmic consistency.")
      ∧ (evaluate_performance (ChordResult.ok ⟨"C major", 0.9⟩ [])
          (RhythmResult.ok ⟨0, 0, 0, 0.8, "steady"⟩)).score = 86
      ∧ (evaluate_performance (ChordResult.ok ⟨"C major", 0.9⟩ [])
          (RhythmResult.ok ⟨0, 0, 0, 0.8, "steady"⟩)).grade = "Excellent"
      ∧ (evaluate_performance (ChordResult.ok ⟨"C major", 0.5⟩ [])
          (RhythmResult.ok ⟨0, 0, 0, 0.5, "moderate"⟩)).score = 50
      ∧ (evaluate_performance (ChordResult.ok ⟨"C major", 0.5⟩ [])
          (RhythmResult.ok ⟨0, 0, 0, 0.5, "moderate"⟩)).grade = "Fair" := by
  have h86 : pyRound (86 : ℚ) 1 = 86 := by
    rw [pyRound_low 86 1 860 (by norm_num) (by norm_num)]
    norm_num
  have h50 : pyRound (50 : ℚ) 1 = 50 := by
    rw [pyRound_low 50 1 500 (by norm_num) (by norm_num)]
    norm_num
  refine ⟨⟨le_min (le_max_right _ 0) zero_le_one, min_le_right _ 1,
    le_min (le_max_right _ 0) zero_le_one, min_le_right _ 1⟩,
    ?_, ?_, ?_, ?_, ?_, ?_, ?_⟩
  · rw [performance_score_eq]
    congr 1
    ring
  · rw [performance_grade_eq, performance_score_eq]
  · rw [performance_feedback_eq, performance_score_eq]
  · rw [performance_score_eq]
    norm_num [chordConfidenceOf, rhythmScoreOf, min_def, max_def, h86]
  · rw [performance_grade_eq]
    norm_num [chordConfidenceOf, rhythmScoreOf, min_def, max_def, h86]
  · rw [performance_score_eq]
    norm_num [chordConfidenceOf, rhythmScoreOf, min_def, max_def, h50]
  · rw [performance_grade_eq]
    norm_num [chordConfidenceOf, rhythmScoreOf, min_def, max_def, h50]

/-- C10: `evaluate_performance` is total over both stage-result shapes: a
chord result with no top chord (the structured error value) contributes
confidence `0.0`, a rhythm result with no rhythm score contributes `0.0`, a
well-formed graded result is still produced (on two error inputs: score `0`,
grade Needs Practice with its fixed feedback), and the grade is always one of
the four fixed labels, so the pipeline continues with a degraded result
instead of failing. -/
theorem evaluate_performance_degraded (m m' : String) (cr : ChordResult)
    (rr : RhythmResult) :
    chordConfidenceOf (ChordResult.error m) = 0
      ∧ rhythmScoreOf (RhythmResult.error m') = 0
      ∧ (evaluate_performance (ChordResult.error m)
          (RhythmResult.error m')).score = 0
      ∧ (evaluate_performance (ChordResult.error m)
          (RhythmResult.error m')).grade = "Needs Practice"
      ∧ (evaluate_performance (ChordResult.error m)
          (RhythmResult.error m')).feedback
        = "Work on both chord accuracy and rhythmic consistency."
      ∧ ((evaluate_performance cr rr).grade = "Excellent"
          ∨ (evaluate_performance cr rr).grade = "Good"
          ∨ (evaluate_performance cr rr).grade = "Fair"
          ∨ (evaluate_performance cr rr).grade = "Needs Practice") := by
  have h0 : pyRound (0 : ℚ) 1 = 0 := by
    rw [pyRound_low 0 1 0 (by norm_num) (by norm_num)]
    norm_num
  refine ⟨rfl, rfl, ?_, ?_, ?_, ?_⟩
  · rw [performance_score_eq]
    norm_num [chordConfidenceOf, rhythmScoreOf, min_def, max_def, h0]
  · rw [performance_grade_eq]
    norm_num [chordConfidenceOf, rhythmScoreOf, min_def, max_def, h0]
  · rw [performance_feedback_eq]
    norm_num [chordConfidenceOf, rhythmScoreOf, min_def, max_def, h0]
  · simp only [evaluate_performance]
    split_ifs <;> simp

end PickPerfect
